import Mathlib

/-!
Verification of the prowler check-execution core and API result model.

Sources embedded here:
* `src/api/src/backend/api/models.py` — the Django result model
  (`StatusChoices`, `PermissionChoices`, `Role.permission_state`,
  `Role.filter_by_permission_state`, `Finding.add_resources`).
* `src/tests/providers/azure/services/monitor/monitor_storage_account_with_activity_logs_is_private/monitor_storage_account_with_activity_logs_is_private_test.py`
  — the observable contract of the Azure monitor check
  `monitor_storage_account_with_activity_logs_is_private`.

The check unit, the service clients and the check runner themselves are not
part of the source tree here; their behaviour is modelled from the
specification (service clients as scope-keyed association lists, the check as
a pure function over the two client caches, the runner as per-check error
isolation), and the model is validated against the literal assertions of the
test file.
-/

/-! ## Azure service-client data model -/

/-- Modelled from the spec: a log-category entry of a diagnostic setting
(`mock.MagicMock(category=..., enabled=...)` in the test file). -/
structure LogEntry where
  category : String
  enabled : Bool
  deriving DecidableEq, Repr

/-- Modelled from the spec: the `DiagnosticSetting` resource record of the
Azure monitor service client (fields as constructed in the test file). -/
structure DiagnosticSetting where
  id : String
  logs : List LogEntry
  storage_account_id : String
  storage_account_name : String
  name : String
  deriving DecidableEq, Repr

/-- Modelled from the spec: the `DeleteRetentionPolicy` sub-record of blob
properties. -/
structure DeleteRetentionPolicy where
  enabled : Bool
  days : Nat
  deriving DecidableEq, Repr

/-- Modelled from the spec: the `NetworkRuleSet` sub-record of a storage
account. -/
structure NetworkRuleSet where
  bypass : String
  default_action : String
  deriving DecidableEq, Repr

/-- Modelled from the spec: the `BlobProperties` sub-record of a storage
account. -/
structure BlobProperties where
  id : String
  name : String
  type : String
  default_service_version : String
  container_delete_retention_policy : DeleteRetentionPolicy
  versioning_enabled : Bool
  deriving DecidableEq, Repr

/-- Modelled from the spec: the `Account` resource record of the Azure
storage service client (fields as constructed in the test file; private
endpoint connections are kept as opaque identifiers). The field name
`resouce_group_name` reproduces the source spelling. -/
structure Account where
  id : String
  name : String
  resouce_group_name : String
  enable_https_traffic_only : Bool
  infrastructure_encryption : Bool
  allow_blob_public_access : Bool
  network_rule_set : NetworkRuleSet
  encryption_type : String
  minimum_tls_version : String
  private_endpoint_connections : List String
  key_expiration_period_in_days : Nat
  location : String
  blob_properties : BlobProperties
  deriving DecidableEq, Repr

/-- Modelled from the spec: the monitor service client cache, owning a
mapping from subscription identifier to the ordered list of diagnostic
settings fetched for that scope.  The mapping is an insertion-ordered
association list, matching the ordered scope→resources map of §4.1. -/
structure MonitorClient where
  diagnostics_settings : List (String × List DiagnosticSetting)
  deriving DecidableEq, Repr

/-- Modelled from the spec: the storage service client cache, owning a
mapping from subscription identifier to the ordered list of storage
accounts fetched for that scope. -/
structure StorageClient where
  storage_accounts : List (String × List Account)
  deriving DecidableEq, Repr

/-- Modelled from the spec: the service-client cache lookup
`get(scope_id) -> ordered sequence of ResourceRecord`, which returns the
empty sequence for an unknown scope and never fails (§4.1). -/
def scopeGet {α : Type} (m : List (String × List α)) (scope : String) : List α :=
  match m.find? (fun p => p.1 == scope) with
  | some p => p.2
  | none => []

/-! ## Check findings -/

/-- Modelled from the spec: the per-resource finding emitted by a check,
with the denormalized identity fields asserted by the test file
(`subscription`, `status`, `status_extended`, `resource_id`,
`resource_name`, `location`). -/
structure CheckReport where
  status : String
  status_extended : String
  subscription : String
  resource_id : String
  resource_name : String
  location : String
  deriving DecidableEq, Repr

/-- Modelled from the spec: finding construction for
`monitor_storage_account_with_activity_logs_is_private` — identity fields
are copied from the matched storage account, the status is `FAIL` exactly
when the account allows public blob access, and `status_extended` is the
fixed message template substituting the account name and the subscription
identifier (§4.4 and the literal string assertions of the test file). -/
def buildReport (subscription : String) (account : Account) : CheckReport :=
  if account.allow_blob_public_access then
    { status := "FAIL"
      status_extended := "Blob public access enabled in storage account " ++
        account.name ++ " storing activity logs in subscription " ++ subscription ++ "."
      subscription := subscription
      resource_id := account.id
      resource_name := account.name
      location := account.location }
  else
    { status := "PASS"
      status_extended := "Blob public access disabled in storage account " ++
        account.name ++ " storing activity logs in subscription " ++ subscription ++ "."
      subscription := subscription
      resource_id := account.id
      resource_name := account.name
      location := account.location }

/-- Modelled from the spec: the findings one diagnostic setting contributes —
the cross-client join of §4.2: each storage account of the same scope whose
`id` equals the setting's `storage_account_id` yields one finding; a setting
with no matching account contributes nothing (skip). -/
def findingsForSetting (subscription : String) (accounts : List Account)
    (ds : DiagnosticSetting) : List CheckReport :=
  accounts.filterMap fun account =>
    if account.id == ds.storage_account_id then
      some (buildReport subscription account)
    else
      none

/-- Modelled from the spec: the evaluation entry point of the check unit
`monitor_storage_account_with_activity_logs_is_private` — iterate all scopes
of the monitor client in cache order, within a scope iterate diagnostic
settings in cache order, and join each against the storage accounts of the
same scope (§4.2). -/
def monitor_storage_account_with_activity_logs_is_private_execute
    (monitor_client : MonitorClient) (storage_client : StorageClient) :
    List CheckReport :=
  monitor_client.diagnostics_settings.flatMap fun scope =>
    scope.2.flatMap fun ds =>
      findingsForSetting scope.1 (scopeGet storage_client.storage_accounts scope.1) ds

/-- Modelled from the spec: the same evaluation, with the service-client
cache state passed through explicitly.  The check performs only reads on the
caches (§4.2 "Side effects: none"), so the state it leaves behind is the
state it received. -/
def monitor_check_executeS (monitor_client : MonitorClient)
    (storage_client : StorageClient) :
    List CheckReport × MonitorClient × StorageClient :=
  (monitor_storage_account_with_activity_logs_is_private_execute monitor_client storage_client,
   monitor_client, storage_client)

/-! ## Test-fixture data (from the test file's literals) -/

/-- Modelled from the spec: the `AZURE_SUBSCRIPTION_ID` fixture constant —
an opaque subscription identifier; any fixed string represents it. -/
def AZURE_SUBSCRIPTION_ID : String := "00000000-0000-0000-0000-000000000000"

/-- First diagnostic setting of `test_diagnostic_settings_configured`. -/
def testDiagnosticSetting1 : DiagnosticSetting :=
  { id := "id"
    logs := [⟨"Administrative", true⟩, ⟨"Security", true⟩, ⟨"ServiceHealth", false⟩,
             ⟨"Alert", true⟩, ⟨"Recommendation", false⟩, ⟨"Policy", true⟩,
             ⟨"Autoscale", false⟩]
    storage_account_id := "/subscriptions/1234a5-123a-123a-123a-1234567890ab/resourceGroups/rg/providers/Microsoft.Storage/storageAccounts/storageaccountname1"
    storage_account_name := "storageaccountname1"
    name := "name" }

/-- Second diagnostic setting of `test_diagnostic_settings_configured`. -/
def testDiagnosticSetting2 : DiagnosticSetting :=
  { id := "id2"
    logs := [⟨"Administrative", true⟩, ⟨"Security", true⟩, ⟨"ServiceHealth", false⟩,
             ⟨"Alert", true⟩, ⟨"Recommendation", false⟩, ⟨"Policy", true⟩,
             ⟨"Autoscale", false⟩]
    storage_account_id := "/subscriptions/1224a5-123a-123a-123a-1234567890ab/resourceGroups/rg/providers/Microsoft.Storage/storageAccounts/storageaccountname2"
    storage_account_name := "storageaccountname2"
    name := "name2" }

/-- First storage account of `test_diagnostic_settings_configured` —
public blob access enabled. -/
def testAccount1 : Account :=
  { id := "/subscriptions/1234a5-123a-123a-123a-1234567890ab/resourceGroups/rg/providers/Microsoft.Storage/storageAccounts/storageaccountname1"
    name := "storageaccountname1"
    resouce_group_name := "rg"
    enable_https_traffic_only := true
    infrastructure_encryption := true
    allow_blob_public_access := true
    network_rule_set := { bypass := "AzureServices", default_action := "Allow" }
    encryption_type := "Microsoft.Storage"
    minimum_tls_version := "TLS1_2"
    private_endpoint_connections := []
    key_expiration_period_in_days := 365
    location := "euwest"
    blob_properties :=
      { id := "id", name := "name", type := "type"
        default_service_version := "default_service_version"
        container_delete_retention_policy := { enabled := true, days := 7 }
        versioning_enabled := true } }

/-- Second storage account of `test_diagnostic_settings_configured` —
public blob access disabled. -/
def testAccount2 : Account :=
  { id := "/subscriptions/1224a5-123a-123a-123a-1234567890ab/resourceGroups/rg/providers/Microsoft.Storage/storageAccounts/storageaccountname2"
    name := "storageaccountname2"
    resouce_group_name := "rg"
    enable_https_traffic_only := false
    infrastructure_encryption := true
    allow_blob_public_access := false
    network_rule_set := { bypass := "AzureServices", default_action := "Allow" }
    encryption_type := "Microsoft.Storage"
    minimum_tls_version := "TLS1_2"
    private_endpoint_connections := []
    key_expiration_period_in_days := 365
    location := "euwest"
    blob_properties :=
      { id := "id", name := "name", type := "type"
        default_service_version := "default_service_version"
        container_delete_retention_policy := { enabled := true, days := 7 }
        versioning_enabled := false } }

/-- The monitor-client cache of `test_diagnostic_settings_configured`. -/
def testMonitorClient : MonitorClient :=
  { diagnostics_settings :=
      [(AZURE_SUBSCRIPTION_ID, [testDiagnosticSetting1, testDiagnosticSetting2])] }

/-- The storage-client cache of `test_diagnostic_settings_configured`. -/
def testStorageClient : StorageClient :=
  { storage_accounts := [(AZURE_SUBSCRIPTION_ID, [testAccount1, testAccount2])] }

/-- The two findings the test expects, with identity fields drawn from the
matched storage accounts. -/
def expectedReport1 : CheckReport :=
  { status := "FAIL"
    status_extended := "Blob public access enabled in storage account " ++
      testAccount1.name ++ " storing activity logs in subscription " ++
      AZURE_SUBSCRIPTION_ID ++ "."
    subscription := AZURE_SUBSCRIPTION_ID
    resource_id := testAccount1.id
    resource_name := testAccount1.name
    location := testAccount1.location }

/-- The second expected finding. -/
def expectedReport2 : CheckReport :=
  { status := "PASS"
    status_extended := "Blob public access disabled in storage account " ++
      testAccount2.name ++ " storing activity logs in subscription " ++
      AZURE_SUBSCRIPTION_ID ++ "."
    subscription := AZURE_SUBSCRIPTION_ID
    resource_id := testAccount2.id
    resource_name := testAccount2.name
    location := testAccount2.location }

/-- Shared evaluation of the check on the test fixture. -/
theorem execute_on_test_fixture :
    monitor_storage_account_with_activity_logs_is_private_execute
      testMonitorClient testStorageClient = [expectedReport1, expectedReport2] := by
  decide

/-! ## Check runner -/

/-- Modelled from the spec: a check unit as seen by the runner — a stable
string identity plus the outcome of calling its evaluation entry point,
which either returns a finding sequence or lets an error escape (§4.3,
§7). -/
structure RunnerCheck where
  id : String
  run : Except String (List CheckReport)
  deriving Repr

/-- Modelled from the spec: one entry of the runner's result set — either
the findings a check returned, or a recorded runner-level failure for that
check's identity (§4.3, §6 output boundary). -/
inductive RunEntry where
  | ok (id : String) (findings : List CheckReport)
  | failed (id : String) (err : String)
  deriving DecidableEq, Repr

/-- Modelled from the spec: the check runner — for each check in discovery
order, capture the returned finding sequence; on any escaping error record
a per-check failure entry and continue with the next check (§4.3). -/
def runChecks (checks : List RunnerCheck) : List RunEntry :=
  checks.map fun c =>
    match c.run with
    | Except.ok findings => RunEntry.ok c.id findings
    | Except.error e => RunEntry.failed c.id e

/-! ## Django API result model (`src/api/src/backend/api/models.py`) -/

/-- The `StatusChoices` text-choices enumeration of the API finding model:
`FAIL`, `PASS`, `MANUAL`, in declaration order. -/
inductive StatusChoices where
  | FAIL
  | PASS
  | MANUAL
  deriving DecidableEq, Repr

/-- The database value of each `StatusChoices` member. -/
def StatusChoices.value : StatusChoices → String
  | .FAIL => "FAIL"
  | .PASS => "PASS"
  | .MANUAL => "MANUAL"

/-- The list of values of the `StatusChoices` enumeration, in declaration
order (Django's `StatusChoices.values`). -/
def StatusChoices.values : List String :=
  [StatusChoices.FAIL.value, StatusChoices.PASS.value, StatusChoices.MANUAL.value]

/-- The `PermissionChoices` text-choices enumeration of the role model:
`UNLIMITED`, `LIMITED`, `NONE`. -/
inductive PermissionChoices where
  | UNLIMITED
  | LIMITED
  | NONE
  deriving DecidableEq, Repr

/-- The `Role` model: a name plus the six `manage_*` permission booleans and
the visibility flag (relational fields are external to this model). -/
structure Role where
  name : String
  manage_users : Bool
  manage_account : Bool
  manage_billing : Bool
  manage_providers : Bool
  manage_integrations : Bool
  manage_scans : Bool
  unlimited_visibility : Bool
  deriving DecidableEq, Repr

/-- The values of the six fields listed in `Role.PERMISSION_FIELDS`, in
list order (`[getattr(self, field) for field in self.PERMISSION_FIELDS]`). -/
def Role.permission_values (r : Role) : List Bool :=
  [r.manage_users, r.manage_account, r.manage_billing,
   r.manage_providers, r.manage_integrations, r.manage_scans]

/-- `Role.permission_state`: `UNLIMITED` if all permission fields hold,
`NONE` if none does, `LIMITED` otherwise. -/
def Role.permission_state (r : Role) : PermissionChoices :=
  if r.permission_values.all (fun b => b) then
    PermissionChoices.UNLIMITED
  else if !(r.permission_values.any (fun b => b)) then
    PermissionChoices.NONE
  else
    PermissionChoices.LIMITED

/-- The query `Q(**{field: True for field in cls.PERMISSION_FIELDS})` of
`Role.filter_by_permission_state`: every permission field is true. -/
def Role.q_all_true (r : Role) : Bool :=
  r.manage_users && r.manage_account && r.manage_billing &&
  r.manage_providers && r.manage_integrations && r.manage_scans

/-- The query `Q(**{field: False for field in cls.PERMISSION_FIELDS})` of
`Role.filter_by_permission_state`: every permission field is false. -/
def Role.q_all_false (r : Role) : Bool :=
  !r.manage_users && !r.manage_account && !r.manage_billing &&
  !r.manage_providers && !r.manage_integrations && !r.manage_scans

/-- `Role.filter_by_permission_state`: filter the queryset by `q_all_true`
for `UNLIMITED`, by `q_all_false` for `NONE`, and otherwise exclude both
(`queryset.exclude(q_all_true | q_all_false)`). -/
def Role.filter_by_permission_state (queryset : List Role)
    (value : PermissionChoices) : List Role :=
  if value = PermissionChoices.UNLIMITED then
    queryset.filter fun r => r.q_all_true
  else if value = PermissionChoices.NONE then
    queryset.filter fun r => r.q_all_false
  else
    queryset.filter fun r => !(r.q_all_true || r.q_all_false)

/-- The `Resource` model, restricted to the denormalized attributes
`Finding.add_resources` reads: `region`, `service` and `type`. -/
structure Resource where
  region : String
  service : String
  type : String
  deriving DecidableEq, Repr

/-- The `Finding` model, restricted to the fields relevant here: the
three-valued status, the muted flag (a separate boolean, not a status
value), and the three nullable denormalized resource arrays. -/
structure Finding where
  status : StatusChoices
  status_extended : String
  muted : Bool
  resource_regions : Option (List String)
  resource_services : Option (List String)
  resource_types : Option (List String)
  deriving DecidableEq, Repr

/-- `Finding.add_resources`: return immediately on a falsy argument
(`None` or the empty list); otherwise replace each null array by the empty
list, collect the existing entries together with the region, service and
type of every given resource into a set, and store the set back as a list.
Python's `set` is modelled as a deduplicated list: membership-faithful,
since a Python set's iteration order is unspecified.  The
`ResourceFindingMapping` upsert is persistence-layer state outside this
model. -/
def Finding.add_resources (f : Finding) (resources : Option (List Resource)) :
    Finding :=
  match resources with
  | none => f
  | some [] => f
  | some rs =>
      let regions := ((f.resource_regions.getD []) ++ rs.map Resource.region).dedup
      let services := ((f.resource_services.getD []) ++ rs.map Resource.service).dedup
      let types := ((f.resource_types.getD []) ++ rs.map Resource.type).dedup
      { f with
          resource_regions := some regions
          resource_services := some services
          resource_types := some types }

/-! ## Claim theorems -/

/-- C1: for a cache with one scope containing two diagnostic settings that
reference two different storage accounts, where the first referenced account
has public blob access enabled and the second has it disabled, the check
returns exactly two findings ordered to match the input order of the
diagnostic settings, with statuses FAIL then PASS, and each finding's
resource_id, resource_name and location are copied from the matched storage
account record. -/
theorem monitor_check_two_settings_scenario :
    monitor_storage_account_with_activity_logs_is_private_execute
      testMonitorClient testStorageClient = [expectedReport1, expectedReport2] ∧
    (monitor_storage_account_with_activity_logs_is_private_execute
      testMonitorClient testStorageClient).length = 2 ∧
    expectedReport1.status = "FAIL" ∧
    expectedReport2.status = "PASS" ∧
    expectedReport1.resource_id = testAccount1.id ∧
    expectedReport1.resource_name = testAccount1.name ∧
    expectedReport1.location = testAccount1.location ∧
    expectedReport2.resource_id = testAccount2.id ∧
    expectedReport2.resource_name = testAccount2.name ∧
    expectedReport2.location = testAccount2.location := by
  refine ⟨execute_on_test_fixture, ?_, rfl, rfl, rfl, rfl, rfl, rfl, rfl, rfl⟩
  rw [execute_on_test_fixture]
  rfl

/-- C3: executing the check against a cache with zero scopes returns the
empty finding sequence, executing against a cache whose single scope maps to
an empty resource list also returns the empty sequence, and the two cache
shapes are indistinguishable at the execute output. -/
theorem monitor_check_empty_cache (sc : StorageClient) (scope : String) :
    monitor_storage_account_with_activity_logs_is_private_execute
      { diagnostics_settings := [] } sc = [] ∧
    monitor_storage_account_with_activity_logs_is_private_execute
      { diagnostics_settings := [(scope, [])] } sc = [] ∧
    monitor_storage_account_with_activity_logs_is_private_execute
      { diagnostics_settings := [] } sc =
      monitor_storage_account_with_activity_logs_is_private_execute
        { diagnostics_settings := [(scope, [])] } sc := by
  refine ⟨rfl, ?_, ?_⟩ <;>
    simp [monitor_storage_account_with_activity_logs_is_private_execute]

/-- C4: executing the check twice, threading the service-client state left
by the first call into the second, yields two identical finding sequences —
same list, hence same length, same ordering, and position-by-position the
same status and status_extended strings. -/
theorem monitor_check_idempotent (mc : MonitorClient) (sc : StorageClient) :
    (monitor_check_executeS mc sc).1 =
      (monitor_check_executeS (monitor_check_executeS mc sc).2.1
        (monitor_check_executeS mc sc).2.2).1 ∧
    (monitor_check_executeS mc sc).1.length =
      (monitor_check_executeS (monitor_check_executeS mc sc).2.1
        (monitor_check_executeS mc sc).2.2).1.length ∧
    (monitor_check_executeS mc sc).1.map CheckReport.status =
      (monitor_check_executeS (monitor_check_executeS mc sc).2.1
        (monitor_check_executeS mc sc).2.2).1.map CheckReport.status ∧
    (monitor_check_executeS mc sc).1.map CheckReport.status_extended =
      (monitor_check_executeS (monitor_check_executeS mc sc).2.1
        (monitor_check_executeS mc sc).2.2).1.map CheckReport.status_extended :=
  ⟨rfl, rfl, rfl, rfl⟩

/-- C7: the status enumeration has exactly the three members FAIL, PASS and
MANUAL, its value list is exactly those three strings, muting is not among
them, and every finding's status is one of the three members. -/
theorem statusChoices_three_valued :
    (∀ s : StatusChoices, s = StatusChoices.FAIL ∨ s = StatusChoices.PASS ∨
      s = StatusChoices.MANUAL) ∧
    StatusChoices.values = ["FAIL", "PASS", "MANUAL"] ∧
    StatusChoices.values.contains "MUTED" = false ∧
    (∀ f : Finding, f.status = StatusChoices.FAIL ∨ f.status = StatusChoices.PASS ∨
      f.status = StatusChoices.MANUAL) := by
  refine ⟨fun s => ?_, rfl, by decide, fun f => ?_⟩
  · cases s <;> simp
  · cases hf : f.status <;> simp

/-- C8: executing the check leaves the service-client caches unchanged —
the state returned by the state-passing evaluation equals the input state,
in particular every scope's resource list in the storage cache is the same
before and after the call. -/
theorem monitor_check_no_mutation (mc : MonitorClient) (sc : StorageClient)
    (scope : String) :
    (monitor_check_executeS mc sc).2.1 = mc ∧
    (monitor_check_executeS mc sc).2.2 = sc ∧
    (monitor_check_executeS mc sc).2.1.diagnostics_settings =
      mc.diagnostics_settings ∧
    scopeGet (monitor_check_executeS mc sc).2.2.storage_accounts scope =
      scopeGet sc.storage_accounts scope :=
  ⟨rfl, rfl, rfl, rfl⟩

/-- Helper: every finding the check emits is the report built from some
scope identifier and some storage account of the cache. -/
theorem mem_execute_eq_buildReport (mc : MonitorClient) (sc : StorageClient)
    (f : CheckReport)
    (hf : f ∈ monitor_storage_account_with_activity_logs_is_private_execute mc sc) :
    ∃ sub account, f = buildReport sub account := by
  unfold monitor_storage_account_with_activity_logs_is_private_execute at hf
  rw [List.mem_flatMap] at hf
  obtain ⟨scope, _, hf⟩ := hf
  rw [List.mem_flatMap] at hf
  obtain ⟨ds, _, hf⟩ := hf
  unfold findingsForSetting at hf
  rw [List.mem_filterMap] at hf
  obtain ⟨account, _, heq⟩ := hf
  cases hid : (account.id == ds.storage_account_id) <;> rw [hid] at heq
  · simp at heq
  · simp at heq
    exact ⟨scope.1, account, heq.symm⟩

/-- C2: every finding the check emits carries the fixed status_extended
message template — the enabled wording with status FAIL, or the disabled
wording with status PASS — substituting the finding's resource name and
subscription; and report construction copies the matched account's name and
the subscription verbatim, with FAIL exactly when the account allows public
blob access. -/
theorem monitor_check_status_extended_template
    (mc : MonitorClient) (sc : StorageClient) (f : CheckReport)
    (sub : String) (account : Account)
    (hf : f ∈ monitor_storage_account_with_activity_logs_is_private_execute mc sc) :
    ((f.status = "FAIL" ∧ f.status_extended =
        "Blob public access enabled in storage account " ++ f.resource_name ++
        " storing activity logs in subscription " ++ f.subscription ++ ".") ∨
     (f.status = "PASS" ∧ f.status_extended =
        "Blob public access disabled in storage account " ++ f.resource_name ++
        " storing activity logs in subscription " ++ f.subscription ++ ".")) ∧
    (buildReport sub account).resource_name = account.name ∧
    (buildReport sub account).subscription = sub ∧
    ((buildReport sub account).status = "FAIL" ↔
      account.allow_blob_public_access = true) ∧
    ((buildReport sub account).status = "PASS" ↔
      account.allow_blob_public_access = false) := by
  obtain ⟨sub', a', rfl⟩ := mem_execute_eq_buildReport mc sc f hf
  refine ⟨?_, ?_, ?_, ?_, ?_⟩
  · cases ha : a'.allow_blob_public_access
    · right
      simp [buildReport, ha]
    · left
      simp [buildReport, ha]
  · cases ha : account.allow_blob_public_access <;> simp [buildReport, ha]
  · cases ha : account.allow_blob_public_access <;> simp [buildReport, ha]
  · cases ha : account.allow_blob_public_access <;> simp [buildReport, ha]
  · cases ha : account.allow_blob_public_access <;> simp [buildReport, ha]

/-- C2 witness: the template property instantiated on the test fixture's
first finding and first storage account. -/
theorem monitor_check_status_extended_template_witness :
    expectedReport1 ∈ monitor_storage_account_with_activity_logs_is_private_execute
      testMonitorClient testStorageClient ∧
    (((expectedReport1.status = "FAIL" ∧ expectedReport1.status_extended =
        "Blob public access enabled in storage account " ++ expectedReport1.resource_name ++
        " storing activity logs in subscription " ++ expectedReport1.subscription ++ ".") ∨
      (expectedReport1.status = "PASS" ∧ expectedReport1.status_extended =
        "Blob public access disabled in storage account " ++ expectedReport1.resource_name ++
        " storing activity logs in subscription " ++ expectedReport1.subscription ++ ".")) ∧
     (buildReport AZURE_SUBSCRIPTION_ID testAccount1).resource_name = testAccount1.name ∧
     (buildReport AZURE_SUBSCRIPTION_ID testAccount1).subscription = AZURE_SUBSCRIPTION_ID ∧
     ((buildReport AZURE_SUBSCRIPTION_ID testAccount1).status = "FAIL" ↔
       testAccount1.allow_blob_public_access = true) ∧
     ((buildReport AZURE_SUBSCRIPTION_ID testAccount1).status = "PASS" ↔
       testAccount1.allow_blob_public_access = false)) :=
  ⟨by decide,
   monitor_check_status_extended_template testMonitorClient testStorageClient
     expectedReport1 AZURE_SUBSCRIPTION_ID testAccount1 (by decide)⟩

/-- C5: for a batch of three checks where the second lets an error escape,
the runner's result set keeps the findings of the first and third checks,
records a per-check failure entry for the second check's identity, and the
run does not abort — one entry per check. -/
theorem runner_isolates_check_failure
    (c1 c2 c3 : RunnerCheck) (f1 f3 : List CheckReport) (e : String)
    (h1 : c1.run = Except.ok f1) (h2 : c2.run = Except.error e)
    (h3 : c3.run = Except.ok f3) :
    runChecks [c1, c2, c3] =
      [RunEntry.ok c1.id f1, RunEntry.failed c2.id e, RunEntry.ok c3.id f3] ∧
    (runChecks [c1, c2, c3]).length = 3 := by
  refine ⟨?_, ?_⟩ <;> simp [runChecks, h1, h2, h3]

/-- C5 witness: a concrete three-check batch whose second check raises. -/
theorem runner_isolates_check_failure_witness :
    (RunnerCheck.mk "check1" (Except.ok [expectedReport1])).run =
      Except.ok [expectedReport1] ∧
    (RunnerCheck.mk "check2" (Except.error "boom")).run = Except.error "boom" ∧
    (RunnerCheck.mk "check3" (Except.ok [expectedReport2])).run =
      Except.ok [expectedReport2] ∧
    (runChecks [RunnerCheck.mk "check1" (Except.ok [expectedReport1]),
                RunnerCheck.mk "check2" (Except.error "boom"),
                RunnerCheck.mk "check3" (Except.ok [expectedReport2])] =
      [RunEntry.ok "check1" [expectedReport1], RunEntry.failed "check2" "boom",
       RunEntry.ok "check3" [expectedReport2]] ∧
     (runChecks [RunnerCheck.mk "check1" (Except.ok [expectedReport1]),
                 RunnerCheck.mk "check2" (Except.error "boom"),
                 RunnerCheck.mk "check3" (Except.ok [expectedReport2])]).length = 3) :=
  ⟨rfl, rfl, rfl,
   runner_isolates_check_failure
     (RunnerCheck.mk "check1" (Except.ok [expectedReport1]))
     (RunnerCheck.mk "check2" (Except.error "boom"))
     (RunnerCheck.mk "check3" (Except.ok [expectedReport2]))
     [expectedReport1] [expectedReport2] "boom" rfl rfl rfl⟩

/-- C6: a diagnostic setting whose storage_account_id matches no account of
its scope contributes no finding — the evaluation of that setting is the
empty list, and a cache holding only that setting makes execute return the
empty finding sequence (total evaluation, no error). -/
theorem monitor_check_dangling_join
    (sc : StorageClient) (scope : String) (ds : DiagnosticSetting)
    (h : (scopeGet sc.storage_accounts scope).all
      (fun a => a.id != ds.storage_account_id) = true) :
    findingsForSetting scope (scopeGet sc.storage_accounts scope) ds = [] ∧
    monitor_storage_account_with_activity_logs_is_private_execute
      { diagnostics_settings := [(scope, [ds])] } sc = [] := by
  rw [List.all_eq_true] at h
  have hmain : findingsForSetting scope (scopeGet sc.storage_accounts scope) ds = [] := by
    unfold findingsForSetting
    rw [List.filterMap_eq_nil_iff]
    intro a ha
    have hne := h a ha
    rw [bne_iff_ne] at hne
    rw [if_neg]
    simp [hne]
  refine ⟨hmain, ?_⟩
  simp [monitor_storage_account_with_activity_logs_is_private_execute, hmain]

/-- A diagnostic setting referencing a storage account absent from the
storage cache, for the dangling-join witness. -/
def danglingSetting : DiagnosticSetting :=
  { id := "id3"
    logs := []
    storage_account_id := "/subscriptions/none/resourceGroups/rg/providers/Microsoft.Storage/storageAccounts/missing"
    storage_account_name := "missing"
    name := "dangling" }

/-- C6 witness: the dangling setting against the test storage cache. -/
theorem monitor_check_dangling_join_witness :
    (scopeGet testStorageClient.storage_accounts AZURE_SUBSCRIPTION_ID).all
      (fun a => a.id != danglingSetting.storage_account_id) = true ∧
    (findingsForSetting AZURE_SUBSCRIPTION_ID
       (scopeGet testStorageClient.storage_accounts AZURE_SUBSCRIPTION_ID)
       danglingSetting = [] ∧
     monitor_storage_account_with_activity_logs_is_private_execute
       { diagnostics_settings := [(AZURE_SUBSCRIPTION_ID, [danglingSetting])] }
       testStorageClient = []) :=
  ⟨by decide,
   monitor_check_dangling_join testStorageClient AZURE_SUBSCRIPTION_ID
     danglingSetting (by decide)⟩

/-- Helper: the per-object permission_state property agrees with the three
query predicates used by filter_by_permission_state. -/
theorem permission_state_vs_queries (r : Role) :
    (r.permission_state = PermissionChoices.UNLIMITED ↔ r.q_all_true = true) ∧
    (r.permission_state = PermissionChoices.NONE ↔ r.q_all_false = true) ∧
    (r.permission_state = PermissionChoices.LIMITED ↔
      (!(r.q_all_true || r.q_all_false)) = true) := by
  obtain ⟨nm, u, a, b, p, i, s, v⟩ := r
  cases u <;> cases a <;> cases b <;> cases p <;> cases i <;> cases s <;>
    simp [Role.permission_state, Role.permission_values, Role.q_all_true,
      Role.q_all_false]

/-- C9: permission_state is UNLIMITED exactly when all six PERMISSION_FIELDS
are true, NONE exactly when all six are false, LIMITED otherwise; and
filter_by_permission_state selects exactly the roles of the queryset whose
permission_state equals the requested value. -/
theorem role_permission_state_consistent
    (r : Role) (queryset : List Role) (value : PermissionChoices) :
    (r.permission_state = PermissionChoices.UNLIMITED ↔
      r.manage_users = true ∧ r.manage_account = true ∧ r.manage_billing = true ∧
      r.manage_providers = true ∧ r.manage_integrations = true ∧
      r.manage_scans = true) ∧
    (r.permission_state = PermissionChoices.NONE ↔
      r.manage_users = false ∧ r.manage_account = false ∧ r.manage_billing = false ∧
      r.manage_providers = false ∧ r.manage_integrations = false ∧
      r.manage_scans = false) ∧
    (r.permission_state = PermissionChoices.LIMITED ↔
      r.q_all_true = false ∧ r.q_all_false = false) ∧
    (r ∈ Role.filter_by_permission_state queryset value ↔
      r ∈ queryset ∧ r.permission_state = value) := by
  refine ⟨?_, ?_, ?_, ?_⟩
  · rw [(permission_state_vs_queries r).1]
    simp [Role.q_all_true, and_assoc]
  · rw [(permission_state_vs_queries r).2.1]
    simp [Role.q_all_false, and_assoc]
  · obtain ⟨nm, u, a, b, p, i, s, v⟩ := r
    cases u <;> cases a <;> cases b <;> cases p <;> cases i <;> cases s <;>
      simp [Role.permission_state, Role.permission_values, Role.q_all_true,
        Role.q_all_false]
  · cases value
    · rw [show Role.filter_by_permission_state queryset PermissionChoices.UNLIMITED =
        queryset.filter (fun x => x.q_all_true) from rfl]
      rw [List.mem_filter, (permission_state_vs_queries r).1]
    · rw [show Role.filter_by_permission_state queryset PermissionChoices.LIMITED =
        queryset.filter (fun x => !(x.q_all_true || x.q_all_false)) from rfl]
      rw [List.mem_filter, (permission_state_vs_queries r).2.2]
    · rw [show Role.filter_by_permission_state queryset PermissionChoices.NONE =
        queryset.filter (fun x => x.q_all_false) from rfl]
      rw [List.mem_filter, (permission_state_vs_queries r).2.1]

/-- C10: add_resources is the identity on a null or empty resource list; on
a non-empty list each of the three denormalized arrays afterwards is
duplicate-free and contains exactly the pre-existing entries plus the
region, service and type of every given resource. -/
theorem finding_add_resources_spec
    (f : Finding) (rs : List Resource) (x : String)
    (hne : rs.isEmpty = false) :
    f.add_resources none = f ∧
    f.add_resources (some []) = f ∧
    ((f.add_resources (some rs)).resource_regions.getD []).Nodup ∧
    ((f.add_resources (some rs)).resource_services.getD []).Nodup ∧
    ((f.add_resources (some rs)).resource_types.getD []).Nodup ∧
    (x ∈ (f.add_resources (some rs)).resource_regions.getD [] ↔
      x ∈ f.resource_regions.getD [] ∨ x ∈ rs.map Resource.region) ∧
    (x ∈ (f.add_resources (some rs)).resource_services.getD [] ↔
      x ∈ f.resource_services.getD [] ∨ x ∈ rs.map Resource.service) ∧
    (x ∈ (f.add_resources (some rs)).resource_types.getD [] ↔
      x ∈ f.resource_types.getD [] ∨ x ∈ rs.map Resource.type) := by
  cases rs with
  | nil => simp at hne
  | cons r t =>
    refine ⟨rfl, rfl, ?_, ?_, ?_, ?_, ?_, ?_⟩ <;>
      simp [Finding.add_resources, List.nodup_dedup, List.mem_dedup,
        List.mem_append]

/-- A finding with one pre-populated array, one null array and one empty
array, for the add_resources witness. -/
def wFinding : Finding :=
  { status := StatusChoices.PASS
    status_extended := ""
    muted := false
    resource_regions := some ["eu-west-1", "us-east-1"]
    resource_services := none
    resource_types := some [] }

/-- A non-empty resource list sharing one region with the finding, for the
add_resources witness. -/
def wResources : List Resource :=
  [⟨"eu-west-1", "s3", "bucket"⟩, ⟨"ap-south-1", "ec2", "instance"⟩]

/-- C10 witness: the add_resources contract instantiated on the concrete
finding and resource list above, probed at the shared region entry. -/
theorem finding_add_resources_spec_witness :
    wResources.isEmpty = false ∧
    (wFinding.add_resources none = wFinding ∧
     wFinding.add_resources (some []) = wFinding ∧
     ((wFinding.add_resources (some wResources)).resource_regions.getD []).Nodup ∧
     ((wFinding.add_resources (some wResources)).resource_services.getD []).Nodup ∧
     ((wFinding.add_resources (some wResources)).resource_types.getD []).Nodup ∧
     ("eu-west-1" ∈ (wFinding.add_resources (some wResources)).resource_regions.getD [] ↔
       "eu-west-1" ∈ wFinding.resource_regions.getD [] ∨
       "eu-west-1" ∈ wResources.map Resource.region) ∧
     ("eu-west-1" ∈ (wFinding.add_resources (some wResources)).resource_services.getD [] ↔
       "eu-west-1" ∈ wFinding.resource_services.getD [] ∨
       "eu-west-1" ∈ wResources.map Resource.service) ∧
     ("eu-west-1" ∈ (wFinding.add_resources (some wResources)).resource_types.getD [] ↔
       "eu-west-1" ∈ wFinding.resource_types.getD [] ∨
       "eu-west-1" ∈ wResources.map Resource.type)) :=
  ⟨rfl, finding_add_resources_spec wFinding wResources "eu-west-1" rfl⟩
